import Mathlib

/-!
Shallow embedding of the datadis telegraf input plugin
(plugins/inputs/datadis/datadis.go, both revisions present in the tree)
together with proofs about the claims of its specification.

Machine integers are modelled as Nat/Int; instants are Unix seconds;
strings are Lean Strings (Go strings of the relevant inputs are ASCII).
-/

namespace Datadis

/-! ## Go time.Parse for the fixed layout "2006/01/02 15:04"

The layout splits into the chunks stdLongYear, "/", stdZeroMonth, "/",
stdZeroDay, " ", stdHour, ":", stdZeroMinute.  We mirror the Go parser:
a 4-digit year, 2-digit month/day/minute, a 1-or-2-digit hour, literal
separators, trailing input rejected, and the range checks month 1..12,
day 1..daysIn(month,year), hour 0..23, minute 0..59. -/

/-- Numeric value of a decimal digit character. -/
def dval (c : Char) : Nat := c.toNat - 48

/-- Go getnum with fixed=true: exactly two decimal digits. -/
def getnum2 : List Char → Option (Nat × List Char)
  | c1 :: c2 :: rest =>
    if c1.isDigit && c2.isDigit then some (dval c1 * 10 + dval c2, rest) else none
  | _ => none

/-- Go getnum with fixed=false: one digit, or two if the second char is a digit. -/
def getnum12 : List Char → Option (Nat × List Char)
  | [] => none
  | [c1] => if c1.isDigit then some (dval c1, []) else none
  | c1 :: c2 :: rest =>
    if c1.isDigit then
      if c2.isDigit then some (dval c1 * 10 + dval c2, rest)
      else some (dval c1, c2 :: rest)
    else none

/-- Go stdLongYear: exactly four decimal digits. -/
def getnum4 : List Char → Option (Nat × List Char)
  | c1 :: c2 :: c3 :: c4 :: rest =>
    if c1.isDigit && c2.isDigit && c3.isDigit && c4.isDigit then
      some (((dval c1 * 10 + dval c2) * 10 + dval c3) * 10 + dval c4, rest)
    else none
  | _ => none

/-- Match one literal layout character. -/
def expectChar (c : Char) : List Char → Option (List Char)
  | x :: rest => if x = c then some rest else none
  | [] => none

/-- Gregorian leap year, as in Go time.isLeap. -/
def isLeap (y : Nat) : Bool := y % 4 == 0 && (y % 100 != 0 || y % 400 == 0)

/-- Days in a month, as in Go time.daysIn. -/
def daysIn (month year : Nat) : Nat :=
  if month = 2 then (if isLeap year then 29 else 28)
  else if month = 4 ∨ month = 6 ∨ month = 9 ∨ month = 11 then 30
  else 31

/-- Days from the Unix epoch to the civil date y-m-d (proleptic Gregorian). -/
def daysFromCivil (y m d : Int) : Int :=
  let y2 := if m ≤ 2 then y - 1 else y
  let era := y2.fdiv 400
  let yoe := y2 - era * 400
  let mp := if m > 2 then m - 3 else m + 9
  let doy := (153 * mp + 2) / 5 + d - 1
  let doe := yoe * 365 + yoe / 4 - yoe / 100 + doy
  era * 146097 + doe - 719468

/-- Unix seconds of a civil date plus hour and minute (UTC, as Go
time.Parse yields for a layout without a zone). -/
def unixOfCivil (y m d hh mm : Int) : Int :=
  daysFromCivil y m d * 86400 + hh * 3600 + mm * 60

/-- Parse the chunk sequence of the layout "2006/01/02 15:04". -/
def parseChunks (s : List Char) : Option (Nat × Nat × Nat × Nat × Nat × List Char) := do
  let (year, s) ← getnum4 s
  let s ← expectChar '/' s
  let (month, s) ← getnum2 s
  let s ← expectChar '/' s
  let (day, s) ← getnum2 s
  let s ← expectChar ' ' s
  let (hour, s) ← getnum12 s
  let s ← expectChar ':' s
  let (minute, s) ← getnum2 s
  pure (year, month, day, hour, minute, s)

/-- Go time.Parse with layout "2006/01/02 15:04", returning the Unix
seconds of the parsed instant, or none on any parse or range error. -/
def goTimeParse (str : String) : Option Int :=
  match parseChunks str.data with
  | none => none
  | some (year, month, day, hour, minute, rest) =>
    if rest = [] ∧ 1 ≤ month ∧ month ≤ 12 ∧ 1 ≤ day ∧ day ≤ daysIn month year
        ∧ hour ≤ 23 ∧ minute ≤ 59 then
      some (unixOfCivil year month day hour minute)
    else none

/-! ## strings.Replace with n = 1 -/

/-- Replace the first occurrence of the nonempty pattern old with new,
as strings.Replace(s, old, new, 1) does for nonempty old. -/
def replaceFirstAux (old new : List Char) : List Char → List Char
  | [] => []
  | c :: rest =>
    if old.isPrefixOf (c :: rest) then new ++ (c :: rest).drop old.length
    else c :: replaceFirstAux old new rest

/-- strings.Replace(s, old, new, 1) for a nonempty old pattern. -/
def stringsReplace1 (s old new : String) : String :=
  String.mk (replaceFirstAux old.data new.data s.data)

/-! ## Data model and Consumption.timestamp -/

/-- Errors produced by the plugin, by provenance: an underlying transport
error, a non-200 response (fmt.Errorf with the status code and status
line), a JSON decode error, or a time.Parse error on the given input. -/
inductive GoErr where
  | transport (msg : String)
  | httpStatus (what : String) (status : Nat) (line : String)
  | decode (msg : String)
  | timeParse (input : String)
deriving DecidableEq

/-- Supply, as decoded from JSON / configured via TOML. -/
structure Supply where
  Address : String := ""
  Cups : String := ""
  PostalCode : String := ""
  Province : String := ""
  Municipality : String := ""
  Distributor : String := ""
  ValidDateFrom : String := ""
  ValidDateTo : String := ""
  PointType : Nat := 0
  DistributorCode : String := ""
deriving DecidableEq

/-- Consumption record.  The float64 KWh field is an opaque payload in the
source (only ever copied into the emitted point), modelled as Int. -/
structure Consumption where
  Cups : String
  Date : String
  Time : String
  KWh : Int
  ObtainMethod : String
deriving DecidableEq

/-- Lift goTimeParse into Except, tagging a failure with its input. -/
def parseToExcept (s : String) : Except GoErr Int :=
  match goTimeParse s with
  | some t => .ok t
  | none => .error (.timeParse s)

/-- Consumption.timestamp: time.Parse of the layout "2006/01/02 15:04"
applied to fmt.Sprintf of the date and the time with the first "24:"
rewritten to "00:". -/
def Consumption.timestamp (c : Consumption) : Except GoErr Int :=
  parseToExcept (c.Date ++ " " ++ stringsReplace1 c.Time "24:" "00:")

/-! ## Date range resolution in fetchConsumption

fetchConsumption builds url.Values with cups, distributorCode,
measurementType and pointType, then sets startDate and endDate: the
configured StartDate and EndDate when both are nonempty, otherwise
time.Now().Add(-DateDuration) and time.Now() formatted "2006/01/02".
The two time.Now() calls of the else branch are modelled as the same
instant now; durations are in seconds. -/

/-- Civil date (y, m, d) of a day count from the Unix epoch. -/
def civilFromDays (z0 : Int) : Int × Int × Int :=
  let z := z0 + 719468
  let era := z.fdiv 146097
  let doe := z - era * 146097
  let yoe := (doe - doe / 1460 + doe / 36524 - doe / 146096) / 365
  let y := yoe + era * 400
  let doy := doe - (365 * yoe + yoe / 4 - yoe / 100)
  let mp := (5 * doy + 2) / 153
  let d := doy - (153 * mp + 2) / 5 + 1
  let m := mp + (if mp < 10 then 3 else -9)
  (if m ≤ 2 then y + 1 else y, m, d)

/-- Zero-pad a number to two digits, as the layout chunk "01" prints. -/
def pad2 (n : Int) : String := if n < 10 then "0" ++ toString n else toString n

/-- Zero-pad a year to four digits, as the layout chunk "2006" prints
(years of the modelled inputs are nonnegative). -/
def pad4 (n : Int) : String :=
  if n < 10 then "000" ++ toString n
  else if n < 100 then "00" ++ toString n
  else if n < 1000 then "0" ++ toString n
  else toString n

/-- Go Format("2006/01/02") of an instant given in Unix seconds. -/
def formatDate (unixSec : Int) : String :=
  let c := civilFromDays (unixSec.fdiv 86400)
  pad4 c.1 ++ "/" ++ pad2 c.2.1 ++ "/" ++ pad2 c.2.2

/-- The startDate/endDate pair fetchConsumption puts into the query:
the explicit pair when both StartDate and EndDate are nonempty, else
now - DateDuration up to now, formatted "2006/01/02". -/
def resolvedDateRange (startDate endDate : String) (dateDuration now : Int) :
    String × String :=
  if startDate ≠ "" ∧ endDate ≠ "" then (startDate, endDate)
  else (formatDate (now - dateDuration), formatDate now)

/-- Plugin state: the configuration and mutable fields of the Datadis
struct.  Supplies is Option (List Supply): none models a nil Go slice,
some l a non-nil slice (a decoded empty JSON array is some []).  The
httpClient, HTTPTimeout and Log fields have no observable effect in the
model and are omitted. -/
structure DState where
  Username : String := ""
  Password : String := ""
  MeasurementType : Nat := 0
  Supplies : Option (List Supply) := none
  StartDate : String := ""
  EndDate : String := ""
  DateDuration : Int := 0
  url : String := ""
  token : String := ""
deriving DecidableEq

/-- The query parameters of the request fetchConsumption builds, as an
association list (the model of url.Values). -/
def consumptionParams (d : DState) (supply : Supply) (now : Int) :
    List (String × String) :=
  let range := resolvedDateRange d.StartDate d.EndDate d.DateDuration now
  [("cups", supply.Cups), ("distributorCode", supply.DistributorCode),
   ("measurementType", toString d.MeasurementType),
   ("pointType", toString supply.PointType),
   ("startDate", range.1), ("endDate", range.2)]

/-! ## The HTTP environment and the two Gather revisions

The tree holds two revisions of the plugin.  In the older one Gather
itself refreshes the token when empty, discovers supplies when nil,
fans out, and emits points one by one through acc.AddFields, returning
on the first timestamp parse error.  In the newer one Gather calls
initializeClient (unconditional refreshToken, then getSupplies when the
Supplies slice is nil), runs the fan-out inside a single awaited
goroutine (pure overhead, collapsed to a direct call here), and emits
through aggregateMetrcs.  Network responses are an environment: each
endpoint yields either a transport error or a status code, a status
line and an already-decoded body (decoding itself may fail). -/

/-- Observable calls of one gather cycle. -/
inductive Event where
  | loginCall
  | suppliesCall
  | fetchCall (cups : String)
deriving DecidableEq

/-- Responses the remote API gives during one cycle. -/
structure Env where
  loginResp : Except String (Nat × String × String)
  suppliesResp : Except String (Nat × String × Except String (List Supply))
  consumptionResp : Supply → Except String (Nat × String × Except String (List Consumption))

/-- Result of one stateful step: new state, calls made, error if any. -/
structure StepOut where
  state : DState
  trace : List Event
  err : Option GoErr

/-- refreshToken: POST the login; on 200 store the raw body as the
token, otherwise fail with the status code and status line. -/
def refreshToken (d : DState) (env : Env) : StepOut :=
  match env.loginResp with
  | .error m => ⟨d, [.loginCall], some (.transport m)⟩
  | .ok (status, line, body) =>
    if status = 200 then ⟨{ d with token := body }, [.loginCall], none⟩
    else ⟨d, [.loginCall], some (.httpStatus "token" status line)⟩

/-- getSupplies: GET the supply list; on 200 decode a JSON array into
Supplies (a decoded empty array still yields a non-nil slice, i.e.
some []), otherwise fail with the status code and status line. -/
def getSupplies (d : DState) (env : Env) : StepOut :=
  match env.suppliesResp with
  | .error m => ⟨d, [.suppliesCall], some (.transport m)⟩
  | .ok (status, line, bodyDec) =>
    if status = 200 then
      match bodyDec with
      | .error m => ⟨d, [.suppliesCall], some (.decode m)⟩
      | .ok data => ⟨{ d with Supplies := some data }, [.suppliesCall], none⟩
    else ⟨d, [.suppliesCall], some (.httpStatus "supplies" status line)⟩

/-- Response handling of fetchConsumption for one supply (the request
parameters it sends are consumptionParams). -/
def fetchConsumptionM (d : DState) (supply : Supply) (env : Env) :
    Except GoErr (List Consumption) :=
  match env.consumptionResp supply with
  | .error m => .error (.transport m)
  | .ok (status, line, bodyDec) =>
    if status = 200 then
      match bodyDec with
      | .error m => .error (.decode m)
      | .ok data => .ok data
    else .error (.httpStatus "consumption" status line)

/-- Successful payload of an Except. -/
def exOk {ε α : Type} : Except ε α → Option α
  | .ok a => some a
  | .error _ => none

/-- Error payload of an Except. -/
def exErr {ε α : Type} : Except ε α → Option ε
  | .ok _ => none
  | .error e => some e

/-- One completed task of the errgroup fan-out: its data is appended to
the shared collection (nothing on failure, since a failed
fetchConsumption returns a nil slice) and the group keeps the first
error, as errgroup.Wait surfaces the first error returned. -/
def fanStep (fetch : Supply → Except GoErr (List Consumption))
    (acc : List Consumption × Option GoErr) (s : Supply) :
    List Consumption × Option GoErr :=
  match fetch s with
  | .ok data => (acc.1 ++ data, acc.2)
  | .error e => (acc.1, acc.2.orElse fun _ => some e)

/-- fetchAllConsumptions: one task per supply; order is the completion
order of the tasks (a permutation of the supply list chosen by the
scheduler).  Every task appends atomically in this model; the lost
append of the unsynchronized slice is treated in the race model below.
Returns the calls made, the collected records and errgroup.Wait. -/
def fetchAllConsumptions (fetch : Supply → Except GoErr (List Consumption))
    (order : List Supply) : List Event × List Consumption × Option GoErr :=
  (order.map fun s => Event.fetchCall s.Cups, order.foldl (fanStep fetch) ([], none))

/-- An emitted metric point: series Datadis, tags cups and
obtain_method, field kwh, and its timestamp. -/
structure Point where
  cups : String
  obtainMethod : String
  time : Int
  kwh : Int
deriving DecidableEq

/-- Emission loop of the older Gather: acc.AddFields per record, with
an early return carrying the first timestamp parse error; records
before the failing one stay emitted. -/
def emitLoopA : List Consumption → List Point → List Point × Option GoErr
  | [], acc => (acc, none)
  | c :: rest, acc =>
    match c.timestamp with
    | .error e => (acc, some e)
    | .ok t => emitLoopA rest (acc ++ [⟨c.Cups, c.ObtainMethod, t, c.KWh⟩])

/-- Result of one cycle of the older Gather. -/
structure GatherOutA where
  state : DState
  trace : List Event
  points : List Point
  ret : Option GoErr

/-- The cycle of the older Gather after its token step s1: discover
supplies only when the slice is nil, fan out, then emit record by
record. -/
def gatherARest (s1 : StepOut) (env : Env) (order : List Supply) : GatherOutA :=
  match s1.err with
  | some e => ⟨s1.state, s1.trace, [], some e⟩
  | none =>
    let s2 := if s1.state.Supplies = none then getSupplies s1.state env
              else ⟨s1.state, [], none⟩
    match s2.err with
    | some e => ⟨s2.state, s1.trace ++ s2.trace, [], some e⟩
    | none =>
      let fan := fetchAllConsumptions (fun s => fetchConsumptionM s2.state s env) order
      match fan.2.2 with
      | some e => ⟨s2.state, s1.trace ++ s2.trace ++ fan.1, [], some e⟩
      | none =>
        let emitted := emitLoopA fan.2.1 []
        ⟨s2.state, s1.trace ++ s2.trace ++ fan.1, emitted.1, emitted.2⟩

/-- The older revision of Gather: refresh the token only when it is
empty, discover supplies only when the slice is nil, fan out, then emit
record by record. -/
def GatherA (d : DState) (env : Env) (order : List Supply) : GatherOutA :=
  gatherARest (if d.token = "" then refreshToken d env else ⟨d, [], none⟩) env order

/-- Loop body of aggregateMetrcs in the newer revision: on a timestamp
parse error the code calls acc.AddError and records er, but then still
evaluates grouper.Add with the dereferenced timestamp pointer, which is
nil: the cycle panics (modelled as none) and the grouper, which only
hands its buffered metrics to the accumulator after the loop, emits
nothing.  Merging of duplicate series keys inside the grouper is not
exercised by the claims; the buffer is kept as a list. -/
def aggregateMetrcsGo : List Consumption → List GoErr → List Point →
    Option GoErr → List GoErr × Option (List Point × Option GoErr)
  | [], errs, buf, er => (errs, some (buf, er))
  | c :: rest, errs, buf, er =>
    match c.timestamp with
    | .error e => (errs ++ [e], none)
    | .ok t => aggregateMetrcsGo rest errs (buf ++ [⟨c.Cups, c.ObtainMethod, t, c.KWh⟩]) er

/-- aggregateMetrcs of the newer revision: first component the errors
given to acc.AddError, second none when the loop panics on a nil
timestamp, otherwise the emitted points and the returned error. -/
def aggregateMetrcs (metrics : List Consumption) :
    List GoErr × Option (List Point × Option GoErr) :=
  aggregateMetrcsGo metrics [] [] none

/-- initializeClient of the newer revision: the client is created
lazily (no observable effect), the token is refreshed unconditionally,
and supplies are fetched only when the slice is nil. -/
def initializeClient (d : DState) (env : Env) : StepOut :=
  let s1 := refreshToken d env
  match s1.err with
  | some e => ⟨s1.state, s1.trace, some e⟩
  | none =>
    match s1.state.Supplies with
    | none =>
      let s2 := getSupplies s1.state env
      ⟨s2.state, s1.trace ++ s2.trace, s2.err⟩
    | some _ => ⟨s1.state, s1.trace, none⟩

/-- Result of one cycle of the newer Gather: final state, calls made,
errors reported through acc.AddError, emitted points, returned error,
and whether the cycle panicked. -/
structure GatherOutB where
  state : DState
  trace : List Event
  accErrors : List GoErr
  points : List Point
  ret : Option GoErr
  panicked : Bool

/-- The cycle of the newer Gather after initializeClient s1: the
fan-out inside a single awaited goroutine (collapsed to a direct call;
a fan-out error goes to acc.AddError and leaves metrics empty), then
aggregateMetrcs, whose result is returned. -/
def gatherBRest (s1 : StepOut) (env : Env) (order : List Supply) : GatherOutB :=
  match s1.err with
  | some e => ⟨s1.state, s1.trace, [], [], some e, false⟩
  | none =>
    let fan := fetchAllConsumptions (fun s => fetchConsumptionM s1.state s env) order
    match fan.2.2 with
    | some e =>
      match aggregateMetrcs [] with
      | (errs, none) => ⟨s1.state, s1.trace ++ fan.1, e :: errs, [], none, true⟩
      | (errs, some (pts, er)) => ⟨s1.state, s1.trace ++ fan.1, e :: errs, pts, er, false⟩
    | none =>
      match aggregateMetrcs fan.2.1 with
      | (errs, none) => ⟨s1.state, s1.trace ++ fan.1, errs, [], none, true⟩
      | (errs, some (pts, er)) => ⟨s1.state, s1.trace ++ fan.1, errs, pts, er, false⟩

/-- The newer revision of Gather: initializeClient (unconditional token
refresh), then the fan-out and aggregateMetrcs. -/
def GatherB (d : DState) (env : Env) (order : List Supply) : GatherOutB :=
  gatherBRest (initializeClient d env) env order

/-! ## Interleaving model of the unsynchronized fan-out append

In both revisions each errgroup task runs
consumptions = append(consumptions, data...) on the shared slice with
no lock (the mutex of the newer Gather guards only the single
assignment of the outer wrapper goroutine).  An append that is not
atomic is a read of the shared slice followed by a write of the
extended slice; an interleaving of two tasks is a schedule of their
read and write steps. -/

/-- Shared slice plus the snapshot each of two tasks has read. -/
structure RaceState where
  shared : List Consumption
  snap1 : Option (List Consumption)
  snap2 : Option (List Consumption)

/-- One step of one of the two tasks: read the shared slice, or write
back the snapshot extended with the task data. -/
inductive RaceOp where
  | read1
  | write1
  | read2
  | write2

/-- Execute one scheduled step of the unsynchronized append. -/
def raceStep (data1 data2 : List Consumption) (st : RaceState) : RaceOp → RaceState
  | .read1 => { st with snap1 := some st.shared }
  | .write1 =>
    match st.snap1 with
    | some snap => { st with shared := snap ++ data1 }
    | none => st
  | .read2 => { st with snap2 := some st.shared }
  | .write2 =>
    match st.snap2 with
    | some snap => { st with shared := snap ++ data2 }
    | none => st

/-- The shared slice after running a schedule of the two unsynchronized
appends from an empty collection. -/
def runRace (data1 data2 : List Consumption) (sched : List RaceOp) : List Consumption :=
  (sched.foldl (raceStep data1 data2) ⟨[], none, none⟩).shared

end Datadis

namespace Datadis

/-- C1: for date 2021/12/28 and time 24:00 the parser yields midnight of
the same calendar day, Unix 1640649600, and does not roll to the 29th
(midnight of the 29th is a different Unix value). -/
theorem timestamp_2400_same_day_c1 :
    Consumption.timestamp ⟨"1234", "2021/12/28", "24:00", 117, "Real"⟩ =
      Except.ok 1640649600 ∧
    unixOfCivil 2021 12 28 0 0 = 1640649600 ∧
    unixOfCivil 2021 12 29 0 0 ≠ 1640649600 := by
  refine ⟨rfl, by decide, by decide⟩

/-- C4: when both StartDate and EndDate are set the request carries
exactly those two values, for every current time now; when at least one
is absent it carries now minus the duration and now, formatted
2006/01/02. -/
theorem fetch_dates_c4 (d : DState) (s : Supply) (now : Int) :
    (d.StartDate ≠ "" ∧ d.EndDate ≠ "" →
      consumptionParams d s now =
        [("cups", s.Cups), ("distributorCode", s.DistributorCode),
         ("measurementType", toString d.MeasurementType),
         ("pointType", toString s.PointType),
         ("startDate", d.StartDate), ("endDate", d.EndDate)]) ∧
    (¬(d.StartDate ≠ "" ∧ d.EndDate ≠ "") →
      consumptionParams d s now =
        [("cups", s.Cups), ("distributorCode", s.DistributorCode),
         ("measurementType", toString d.MeasurementType),
         ("pointType", toString s.PointType),
         ("startDate", formatDate (now - d.DateDuration)),
         ("endDate", formatDate now)]) := by
  constructor
  · intro h
    simp [consumptionParams, resolvedDateRange, h]
  · intro h
    simp [consumptionParams, resolvedDateRange, h]

/-- Witness for C4 at a concrete configuration, in both branches. -/
theorem fetch_dates_c4_witness :
    consumptionParams
        { StartDate := "2021/01/01", EndDate := "2021/01/07", DateDuration := 604800 }
        { Cups := "C", DistributorCode := "2", PointType := 5 } 1640649600 =
      [("cups", "C"), ("distributorCode", "2"), ("measurementType", "0"),
       ("pointType", "5"), ("startDate", "2021/01/01"), ("endDate", "2021/01/07")] ∧
    consumptionParams { DateDuration := 604800 }
        { Cups := "C", DistributorCode := "2", PointType := 5 } 1640649600 =
      [("cups", "C"), ("distributorCode", "2"), ("measurementType", "0"),
       ("pointType", "5"), ("startDate", formatDate (1640649600 - 604800)),
       ("endDate", formatDate 1640649600)] := by
  constructor
  · exact (fetch_dates_c4
      { StartDate := "2021/01/01", EndDate := "2021/01/07", DateDuration := 604800 }
      { Cups := "C", DistributorCode := "2", PointType := 5 } 1640649600).1
      ⟨by decide, by decide⟩
  · exact (fetch_dates_c4 { DateDuration := 604800 }
      { Cups := "C", DistributorCode := "2", PointType := 5 } 1640649600).2
      (by simp)

/-- C10: when exactly one of StartDate and EndDate is set, the explicit
value is ignored and the request falls back to the rolling range now
minus the duration up to now. -/
theorem fetch_dates_one_sided_c10 (d : DState) (s : Supply) (now : Int)
    (h : (d.StartDate ≠ "" ∧ d.EndDate = "") ∨ (d.StartDate = "" ∧ d.EndDate ≠ "")) :
    consumptionParams d s now =
      [("cups", s.Cups), ("distributorCode", s.DistributorCode),
       ("measurementType", toString d.MeasurementType),
       ("pointType", toString s.PointType),
       ("startDate", formatDate (now - d.DateDuration)),
       ("endDate", formatDate now)] := by
  have hne : ¬(d.StartDate ≠ "" ∧ d.EndDate ≠ "") := by
    rcases h with ⟨_, h2⟩ | ⟨h1, _⟩
    · exact fun hc => hc.2 h2
    · exact fun hc => hc.1 h1
  simp [consumptionParams, resolvedDateRange, hne]

/-- Witness for C10: only StartDate is configured. -/
theorem fetch_dates_one_sided_c10_witness :
    consumptionParams { StartDate := "2021/01/01", DateDuration := 604800 }
        { Cups := "C", DistributorCode := "2", PointType := 5 } 1640649600 =
      [("cups", "C"), ("distributorCode", "2"), ("measurementType", "0"),
       ("pointType", "5"), ("startDate", formatDate (1640649600 - 604800)),
       ("endDate", formatDate 1640649600)] :=
  fetch_dates_one_sided_c10 { StartDate := "2021/01/01", DateDuration := 604800 }
    { Cups := "C", DistributorCode := "2", PointType := 5 } 1640649600
    (Or.inl ⟨by decide, rfl⟩)

/-- C3: in the newer revision a record with an unparseable (date, time)
pair makes aggregateMetrcs dereference the nil timestamp pointer: the
parse error is handed to acc.AddError, but the cycle then panics (none)
and no point at all is emitted, not even for the earlier well-formed
record, since the grouper only flushes after the loop.  Only the older
revision Gather behaves as claimed: its emission loop keeps the points
emitted before the failing record and returns the parse error. -/
theorem aggregate_nil_deref_c3 :
    aggregateMetrcs
        [⟨"1234", "2021/12/28", "01:00", 121, "Real"⟩,
         ⟨"1234", "bad-date", "01:00", 117, "Real"⟩] =
      ([GoErr.timeParse "bad-date 01:00"], none) ∧
    aggregateMetrcs [⟨"1234", "2021/12/28", "01:00", 121, "Real"⟩] =
      ([], some ([⟨"1234", "Real", 1640653200, 121⟩], none)) ∧
    emitLoopA
        [⟨"1234", "2021/12/28", "01:00", 121, "Real"⟩,
         ⟨"1234", "bad-date", "01:00", 117, "Real"⟩] [] =
      ([⟨"1234", "Real", 1640653200, 121⟩], some (GoErr.timeParse "bad-date 01:00")) :=
  ⟨rfl, rfl, rfl⟩

/-- A record fetched by the first fan-out task. -/
def recA : Consumption := ⟨"A", "2021/12/28", "01:00", 121, "Real"⟩

/-- A record fetched by the second fan-out task. -/
def recB : Consumption := ⟨"B", "2021/12/28", "02:00", 117, "Real"⟩

/-- C9: the per-task appends of fetchAllConsumptions are not guarded by
any lock, and the append of a slice is a read followed by a write of
the shared variable.  Under the schedule where both tasks read before
either writes, the record of the first task is lost, although its fetch
succeeded; the sequential schedule keeps both.  So a concurrently
fetched record can be lost, contradicting the synchronized-append
claim. -/
theorem fanout_unsynchronized_append_c9 :
    runRace [recA] [recB] [RaceOp.read1, RaceOp.read2, RaceOp.write1, RaceOp.write2] =
      [recB] ∧
    recA ∉ runRace [recA] [recB]
      [RaceOp.read1, RaceOp.read2, RaceOp.write1, RaceOp.write2] ∧
    runRace [recA] [recB] [RaceOp.read1, RaceOp.write1, RaceOp.read2, RaceOp.write2] =
      [recA, recB] := by
  refine ⟨rfl, by decide, rfl⟩

lemma prefix_24colon_false (x y : Char) (rest : List Char) (h : ¬(x = '2' ∧ y = '4')) :
    (['2', '4', ':'].isPrefixOf (x :: y :: rest)) = false := by
  rcases not_and_or.mp h with hx | hy
  · have hb : ('2' == x) = false := beq_eq_false_iff_ne.mpr (Ne.symm hx)
    simp [List.isPrefixOf, hb]
  · have hb : ('4' == y) = false := beq_eq_false_iff_ne.mpr (Ne.symm hy)
    simp [List.isPrefixOf, hb]

lemma replaceFirst_hhmm_id (a b c3 c4 : Char) (h : ¬(a = '2' ∧ b = '4')) :
    replaceFirstAux "24:".data "00:".data [a, b, ':', c3, c4] = [a, b, ':', c3, c4] := by
  have hdata : "24:".data = ['2', '4', ':'] := rfl
  rw [hdata]
  have h0 := prefix_24colon_false a b [':', c3, c4] h
  have h1 := prefix_24colon_false b ':' [c3, c4] (fun hh => absurd hh.2 (by decide))
  have h2 := prefix_24colon_false ':' c3 [c4] (fun hh => absurd hh.1 (by decide))
  have h3 : (['2', '4', ':'].isPrefixOf [c3, c4]) = false := by
    simp [List.isPrefixOf]
  have h4 : (['2', '4', ':'].isPrefixOf [c4]) = false := by
    simp [List.isPrefixOf]
  simp only [replaceFirstAux, h0, h1, h2, h3, h4, Bool.false_eq_true, if_false]

/-- C5: for a time-of-day string HH:MM whose hour is not the literal
24, the 24-to-00 rewrite leaves the string unchanged, so the parser
output equals directly parsing date ++ " " ++ time against the layout
2006/01/02 15:04, and it fails exactly when that direct parse fails. -/
theorem timestamp_eq_direct_parse_c5 (cups date : String) (a b c3 c4 : Char)
    (kwh : Int) (om : String) (h : ¬(a = '2' ∧ b = '4')) :
    Consumption.timestamp ⟨cups, date, String.mk [a, b, ':', c3, c4], kwh, om⟩ =
      parseToExcept (date ++ " " ++ String.mk [a, b, ':', c3, c4]) ∧
    ((∃ e, Consumption.timestamp ⟨cups, date, String.mk [a, b, ':', c3, c4], kwh, om⟩ =
        Except.error e) ↔
      goTimeParse (date ++ " " ++ String.mk [a, b, ':', c3, c4]) = none) := by
  have hrepl : stringsReplace1 (String.mk [a, b, ':', c3, c4]) "24:" "00:" =
      String.mk [a, b, ':', c3, c4] :=
    congrArg String.mk (replaceFirst_hhmm_id a b c3 c4 h)
  have hmain : Consumption.timestamp ⟨cups, date, String.mk [a, b, ':', c3, c4], kwh, om⟩ =
      parseToExcept (date ++ " " ++ String.mk [a, b, ':', c3, c4]) := by
    simp only [Consumption.timestamp, hrepl]
  refine ⟨hmain, ?_⟩
  rw [hmain]
  unfold parseToExcept
  cases hg : goTimeParse (date ++ " " ++ String.mk [a, b, ':', c3, c4]) <;> simp

/-- Witness for C5 at date 2021/12/28 and time 01:00. -/
theorem timestamp_eq_direct_parse_c5_witness :
    Consumption.timestamp ⟨"1234", "2021/12/28", "01:00", 121, "Real"⟩ =
      parseToExcept ("2021/12/28" ++ " " ++ "01:00") :=
  (timestamp_eq_direct_parse_c5 "1234" "2021/12/28" '0' '1' '0' '0' 121 "Real"
    (by decide)).1

lemma fan_foldl (fetch : Supply → Except GoErr (List Consumption))
    (order : List Supply) (acc : List Consumption × Option GoErr) :
    order.foldl (fanStep fetch) acc =
      (acc.1 ++ (order.filterMap fun s => exOk (fetch s)).flatten,
       acc.2.orElse fun _ => (order.filterMap fun s => exErr (fetch s)).head?) := by
  induction order generalizing acc with
  | nil =>
    obtain ⟨a, e⟩ := acc
    cases e <;> simp [Option.orElse]
  | cons s rest ih =>
    simp only [List.foldl_cons, List.filterMap_cons]
    cases hf : fetch s with
    | ok data =>
      simp [fanStep, hf, ih, exOk, exErr, List.append_assoc]
    | error e =>
      simp only [fanStep, hf, ih, exOk, exErr]
      obtain ⟨a, e2⟩ := acc
      cases e2 <;> simp [Option.orElse]

lemma fan_all (fetch : Supply → Except GoErr (List Consumption))
    (order : List Supply) :
    order.foldl (fanStep fetch) ([], none) =
      ((order.filterMap fun s => exOk (fetch s)).flatten,
       (order.filterMap fun s => exErr (fetch s)).head?) := by
  rw [fan_foldl]
  simp [Option.orElse]

/-- C2: over any completion order of the tasks (a permutation of the
supply list), the fan-out invokes the fetch of every supply, waits for
all of them, collects the concatenation of the records of the
successful fetches, and returns as error the first one encountered in
completion order: nil exactly when every fetch succeeded. -/
theorem fetch_all_consumptions_c2 (fetch : Supply → Except GoErr (List Consumption))
    (supplies order : List Supply) (hperm : order.Perm supplies) :
    (∀ s ∈ supplies, Event.fetchCall s.Cups ∈ (fetchAllConsumptions fetch order).1) ∧
    (fetchAllConsumptions fetch order).2.1 =
      (order.filterMap fun s => exOk (fetch s)).flatten ∧
    (fetchAllConsumptions fetch order).2.2 =
      (order.filterMap fun s => exErr (fetch s)).head? ∧
    ((fetchAllConsumptions fetch order).2.2 = none ↔
      ∀ s ∈ supplies, exErr (fetch s) = none) := by
  refine ⟨?_, ?_, ?_, ?_⟩
  · intro s hs
    simp only [fetchAllConsumptions]
    exact List.mem_map_of_mem _ (hperm.mem_iff.mpr hs)
  · simp [fetchAllConsumptions, fan_all]
  · simp [fetchAllConsumptions, fan_all]
  · simp only [fetchAllConsumptions, fan_all]
    simp only [List.head?_eq_none_iff, List.filterMap_eq_nil_iff]
    constructor
    · intro hall s hs
      exact hall s (hperm.mem_iff.mpr hs)
    · intro hall s hs
      exact hall s (hperm.mem_iff.mp hs)

/-- A supply whose fetch succeeds in the C2 witness scenario. -/
def supA : Supply := { Cups := "A", DistributorCode := "2", PointType := 1 }

/-- A supply whose fetch fails in the C2 witness scenario. -/
def supB : Supply := { Cups := "B", DistributorCode := "2", PointType := 1 }

/-- Fetch outcome of the C2 witness scenario: supply A succeeds with
one record, every other supply fails. -/
def fetchW : Supply → Except GoErr (List Consumption) :=
  fun s => if s.Cups = "A" then .ok [recA] else .error (.transport "boom")

/-- Witness for C2: two supplies, one failing, completion order with
the failing one first. -/
theorem fetch_all_consumptions_c2_witness :
    (∀ s ∈ [supA, supB], Event.fetchCall s.Cups ∈
      (fetchAllConsumptions fetchW [supB, supA]).1) ∧
    ((fetchAllConsumptions fetchW [supB, supA]).2.2 = none ↔
      ∀ s ∈ [supA, supB], exErr (fetchW s) = none) := by
  have h := fetch_all_consumptions_c2 fetchW [supA, supB] [supB, supA]
    (List.Perm.swap supA supB [])
  exact ⟨h.1, h.2.2.2⟩

lemma refreshToken_trace (d : DState) (env : Env) :
    (refreshToken d env).trace = [Event.loginCall] := by
  unfold refreshToken
  cases env.loginResp with
  | error m => rfl
  | ok t =>
    obtain ⟨status, line, body⟩ := t
    by_cases h : status = 200 <;> simp [h]

lemma refreshToken_supplies (d : DState) (env : Env) :
    (refreshToken d env).state.Supplies = d.Supplies := by
  unfold refreshToken
  cases env.loginResp with
  | error m => rfl
  | ok t =>
    obtain ⟨status, line, body⟩ := t
    by_cases h : status = 200 <;> simp [h]

lemma refreshToken_fail (d : DState) (env : Env) (status : Nat) (line body : String)
    (hresp : env.loginResp = Except.ok (status, line, body)) (hstatus : status ≠ 200) :
    refreshToken d env = ⟨d, [Event.loginCall], some (.httpStatus "token" status line)⟩ := by
  unfold refreshToken
  rw [hresp]
  simp [hstatus]

lemma getSupplies_trace (d : DState) (env : Env) :
    (getSupplies d env).trace = [Event.suppliesCall] := by
  unfold getSupplies
  cases env.suppliesResp with
  | error m => rfl
  | ok t =>
    obtain ⟨status, line, bodyDec⟩ := t
    by_cases h : status = 200
    · cases bodyDec <;> simp [h]
    · simp [h]

lemma getSupplies_token (d : DState) (env : Env) :
    (getSupplies d env).state.token = d.token := by
  unfold getSupplies
  cases env.suppliesResp with
  | error m => rfl
  | ok t =>
    obtain ⟨status, line, bodyDec⟩ := t
    by_cases h : status = 200
    · cases bodyDec <;> simp [h]
    · simp [h]

lemma getSupplies_success (d : DState) (env : Env) (line : String) (data : List Supply)
    (hresp : env.suppliesResp = Except.ok (200, line, Except.ok data)) :
    getSupplies d env = ⟨{ d with Supplies := some data }, [Event.suppliesCall], none⟩ := by
  unfold getSupplies
  rw [hresp]
  simp

lemma gatherARest_err (s1 : StepOut) (env : Env) (order : List Supply) (e : GoErr)
    (h : s1.err = some e) :
    gatherARest s1 env order = ⟨s1.state, s1.trace, [], some e⟩ := by
  unfold gatherARest
  rw [h]

lemma gatherARest_token (s1 : StepOut) (env : Env) (order : List Supply) :
    (gatherARest s1 env order).state.token = s1.state.token := by
  unfold gatherARest
  cases herr : s1.err with
  | some e => rfl
  | none =>
    by_cases hsup : s1.state.Supplies = none
    · simp only [hsup, if_true]
      cases herr2 : (getSupplies s1.state env).err with
      | some e => simp [getSupplies_token]
      | none =>
        cases hfan : (fetchAllConsumptions
            (fun s => fetchConsumptionM (getSupplies s1.state env).state s env) order).2.2
        · simp [getSupplies_token, hfan]
        · simp [getSupplies_token, hfan]
    · simp only [hsup, if_false]
      cases hfan : (fetchAllConsumptions
          (fun s => fetchConsumptionM s1.state s env) order).2.2
      · simp [hfan]
      · simp [hfan]

lemma gatherARest_trace_shape (s1 : StepOut) (env : Env) (order : List Supply) :
    (gatherARest s1 env order).trace = s1.trace ∨
    (gatherARest s1 env order).trace = s1.trace ++ [Event.suppliesCall] ∨
    (gatherARest s1 env order).trace =
      s1.trace ++ (order.map fun s => Event.fetchCall s.Cups) ∨
    (gatherARest s1 env order).trace =
      s1.trace ++ [Event.suppliesCall] ++ (order.map fun s => Event.fetchCall s.Cups) := by
  unfold gatherARest
  cases herr : s1.err with
  | some e => exact Or.inl rfl
  | none =>
    by_cases hsup : s1.state.Supplies = none
    · simp only [hsup, if_true]
      cases herr2 : (getSupplies s1.state env).err with
      | some e =>
        exact Or.inr (Or.inl (by simp [getSupplies_trace]))
      | none =>
        cases hfan : (fetchAllConsumptions
            (fun s => fetchConsumptionM (getSupplies s1.state env).state s env) order).2.2
        · refine Or.inr (Or.inr (Or.inr ?_))
          simp [hfan, getSupplies_trace, fetchAllConsumptions]
        · refine Or.inr (Or.inr (Or.inr ?_))
          simp [hfan, getSupplies_trace, fetchAllConsumptions]
    · simp only [hsup, if_false]
      cases hfan : (fetchAllConsumptions
          (fun s => fetchConsumptionM s1.state s env) order).2.2
      · refine Or.inr (Or.inr (Or.inl ?_))
        simp [hfan, fetchAllConsumptions]
      · refine Or.inr (Or.inr (Or.inl ?_))
        simp [hfan, fetchAllConsumptions]

lemma gatherARest_cached (s1 : StepOut) (env : Env) (order : List Supply)
    (l : List Supply) (hl : s1.state.Supplies = some l) :
    (gatherARest s1 env order).state.Supplies = some l ∧
    ((gatherARest s1 env order).trace = s1.trace ∨
     (gatherARest s1 env order).trace =
       s1.trace ++ (order.map fun s => Event.fetchCall s.Cups)) := by
  unfold gatherARest
  cases herr : s1.err with
  | some e => exact ⟨hl, Or.inl rfl⟩
  | none =>
    have hnot : ¬(s1.state.Supplies = none) := by rw [hl]; simp
    simp only [hnot, if_false]
    cases hfan : (fetchAllConsumptions
        (fun s => fetchConsumptionM s1.state s env) order).2.2
    · exact ⟨hl, Or.inr (by simp [fetchAllConsumptions])⟩
    · exact ⟨hl, Or.inr (by simp [fetchAllConsumptions])⟩

lemma gatherBRest_err (s1 : StepOut) (env : Env) (order : List Supply) (e : GoErr)
    (h : s1.err = some e) :
    gatherBRest s1 env order = ⟨s1.state, s1.trace, [], [], some e, false⟩ := by
  unfold gatherBRest
  rw [h]

lemma gatherBRest_state (s1 : StepOut) (env : Env) (order : List Supply) :
    (gatherBRest s1 env order).state = s1.state := by
  unfold gatherBRest
  cases herr : s1.err with
  | some e => rfl
  | none =>
    cases hfan : (fetchAllConsumptions
        (fun s => fetchConsumptionM s1.state s env) order).2.2 with
    | some e => simp [hfan, aggregateMetrcs, aggregateMetrcsGo]
    | none =>
      rcases hagg : aggregateMetrcs (fetchAllConsumptions
          (fun s => fetchConsumptionM s1.state s env) order).2.1 with ⟨errs, opt⟩
      cases opt with
      | none => simp [hfan, hagg]
      | some p =>
        obtain ⟨pts, er⟩ := p
        simp [hfan, hagg]

lemma gatherBRest_trace_shape (s1 : StepOut) (env : Env) (order : List Supply) :
    (gatherBRest s1 env order).trace = s1.trace ∨
    (gatherBRest s1 env order).trace =
      s1.trace ++ (order.map fun s => Event.fetchCall s.Cups) := by
  unfold gatherBRest
  cases herr : s1.err with
  | some e => exact Or.inl rfl
  | none =>
    cases hfan : (fetchAllConsumptions
        (fun s => fetchConsumptionM s1.state s env) order).2.2 with
    | some e =>
      refine Or.inr ?_
      simp only [hfan, aggregateMetrcs, aggregateMetrcsGo]
      simp [fetchAllConsumptions]
    | none =>
      rcases hagg : aggregateMetrcs (fetchAllConsumptions
          (fun s => fetchConsumptionM s1.state s env) order).2.1 with ⟨errs, opt⟩
      cases opt with
      | none =>
        refine Or.inr ?_
        simp only [hfan, hagg]
        simp [fetchAllConsumptions]
      | some p =>
        obtain ⟨pts, er⟩ := p
        refine Or.inr ?_
        simp only [hfan, hagg]
        simp [fetchAllConsumptions]

lemma initializeClient_trace (d : DState) (env : Env) :
    (initializeClient d env).trace = [Event.loginCall] ∨
    (initializeClient d env).trace = [Event.loginCall, Event.suppliesCall] := by
  unfold initializeClient
  cases herr : (refreshToken d env).err with
  | some e => exact Or.inl (by simp [herr, refreshToken_trace])
  | none =>
    cases hsup : (refreshToken d env).state.Supplies with
    | none => exact Or.inr (by simp [herr, hsup, refreshToken_trace, getSupplies_trace])
    | some l => exact Or.inl (by simp [herr, hsup, refreshToken_trace])

lemma initializeClient_cached (d : DState) (env : Env) (l : List Supply)
    (hl : d.Supplies = some l) :
    initializeClient d env =
      ⟨(refreshToken d env).state, [Event.loginCall], (refreshToken d env).err⟩ := by
  have hsup : (refreshToken d env).state.Supplies = some l :=
    (refreshToken_supplies d env).trans hl
  unfold initializeClient
  cases herr : (refreshToken d env).err with
  | some e => simp [refreshToken_trace, herr]
  | none => simp [hsup, refreshToken_trace, herr]

/-- C6: a cycle whose login response has a status other than 200 fails
with the error carrying that status code and status line, and neither
getSupplies nor any consumption fetch is attempted: in the newer
revision unconditionally, in the older one in any cycle that performs
the login, i.e. whose stored token is empty. -/
theorem login_failure_aborts_cycle_c6 (d : DState) (env : Env) (order : List Supply)
    (status : Nat) (line body : String)
    (hresp : env.loginResp = Except.ok (status, line, body)) (hstatus : status ≠ 200) :
    ((GatherB d env order).ret = some (GoErr.httpStatus "token" status line) ∧
     Event.suppliesCall ∉ (GatherB d env order).trace ∧
     ∀ c, Event.fetchCall c ∉ (GatherB d env order).trace) ∧
    (d.token = "" →
      (GatherA d env order).ret = some (GoErr.httpStatus "token" status line) ∧
      Event.suppliesCall ∉ (GatherA d env order).trace ∧
      ∀ c, Event.fetchCall c ∉ (GatherA d env order).trace) := by
  have hrf := refreshToken_fail d env status line body hresp hstatus
  have hic : initializeClient d env =
      ⟨d, [Event.loginCall], some (GoErr.httpStatus "token" status line)⟩ := by
    unfold initializeClient
    rw [hrf]
  have hgb : GatherB d env order =
      ⟨d, [Event.loginCall], [], [],
       some (GoErr.httpStatus "token" status line), false⟩ := by
    unfold GatherB
    rw [hic]
    exact gatherBRest_err _ env order _ rfl
  constructor
  · rw [hgb]
    exact ⟨rfl, by simp, fun c => by simp⟩
  · intro htok
    have hga : GatherA d env order =
        ⟨d, [Event.loginCall], [], some (GoErr.httpStatus "token" status line)⟩ := by
      unfold GatherA
      rw [if_pos htok, hrf]
      exact gatherARest_err _ env order _ rfl
    rw [hga]
    exact ⟨rfl, by simp, fun c => by simp⟩

/-- Witness for C6: a 401 login response with an empty stored token. -/
theorem login_failure_aborts_cycle_c6_witness :
    (GatherB {} { loginResp := Except.ok (401, "401 Unauthorized", ""),
                  suppliesResp := Except.error "unused",
                  consumptionResp := fun _ => Except.error "unused" } []).ret =
      some (GoErr.httpStatus "token" 401 "401 Unauthorized") ∧
    Event.suppliesCall ∉
      (GatherB {} { loginResp := Except.ok (401, "401 Unauthorized", ""),
                    suppliesResp := Except.error "unused",
                    consumptionResp := fun _ => Except.error "unused" } []).trace ∧
    (GatherA {} { loginResp := Except.ok (401, "401 Unauthorized", ""),
                  suppliesResp := Except.error "unused",
                  consumptionResp := fun _ => Except.error "unused" } []).ret =
      some (GoErr.httpStatus "token" 401 "401 Unauthorized") := by
  have h := login_failure_aborts_cycle_c6 {}
    { loginResp := Except.ok (401, "401 Unauthorized", ""),
      suppliesResp := Except.error "unused",
      consumptionResp := fun _ => Except.error "unused" } []
    401 "401 Unauthorized" "" rfl (by decide)
  exact ⟨h.1.1, h.1.2.1, (h.2 rfl).1⟩

/-- Environment whose three endpoints all answer 200 with benign
bodies. -/
def envStub : Env :=
  { loginResp := Except.ok (200, "200 OK", "newtok"),
    suppliesResp := Except.ok (200, "200 OK", Except.ok []),
    consumptionResp := fun _ => Except.ok (200, "200 OK", Except.ok []) }

/-- A state holding a non-empty cached token and a cached empty supply
list. -/
def dTok : DState := { token := "t", Supplies := some [] }

/-- Counterexample to C7 as stated: in the newer revision a cycle whose
stored token is the non-empty string t still performs a login call and
overwrites the token with the fresh response body. -/
theorem gather_relogin_c7_counterexample :
    dTok.token ≠ "" ∧
    Event.loginCall ∈ (GatherB dTok envStub []).trace ∧
    (GatherB dTok envStub []).state.token = "newtok" := by
  exact ⟨by decide, by decide, rfl⟩

/-- C7 amended: in the older revision Gather performs the login exactly
when the stored token is empty and otherwise leaves the token field
unchanged with no login call; in the newer revision initializeClient
performs a login on every cycle regardless of the stored token. -/
theorem gather_token_policy_c7_amended (d : DState) (env : Env) (order : List Supply) :
    (d.token = "" → Event.loginCall ∈ (GatherA d env order).trace) ∧
    (d.token ≠ "" →
      Event.loginCall ∉ (GatherA d env order).trace ∧
      (GatherA d env order).state.token = d.token) ∧
    Event.loginCall ∈ (GatherB d env order).trace := by
  refine ⟨?_, ?_, ?_⟩
  · intro htok
    unfold GatherA
    rw [if_pos htok]
    rcases gatherARest_trace_shape (refreshToken d env) env order with h | h | h | h <;>
      simp [h, refreshToken_trace]
  · intro htok
    unfold GatherA
    rw [if_neg htok]
    constructor
    · rcases gatherARest_trace_shape ⟨d, [], none⟩ env order with h | h | h | h <;>
        simp [h, List.mem_map]
    · exact gatherARest_token _ env order
  · unfold GatherB
    rcases gatherBRest_trace_shape (initializeClient d env) env order with h | h <;>
      rcases initializeClient_trace d env with h2 | h2 <;>
        simp [h, h2]

/-- Witness for C7 amended: with an empty token both revisions log in. -/
theorem gather_token_policy_c7_witness :
    Event.loginCall ∈ (GatherA {} envStub []).trace ∧
    Event.loginCall ∈ (GatherB {} envStub []).trace := by
  have h := gather_token_policy_c7_amended {} envStub []
  exact ⟨h.1 rfl, h.2.2⟩

/-- C8: a successful discovery stores the decoded list (a decoded empty
array included) as a non-nil slice, and a cycle that starts with a
non-nil cached supply list, empty or not, performs no supply discovery
and leaves the cached list unchanged, in both revisions. -/
theorem supplies_cached_c8 (d : DState) (env : Env) (order : List Supply)
    (l : List Supply) (line : String) (data : List Supply) :
    (env.suppliesResp = Except.ok (200, line, Except.ok data) →
      (getSupplies d env).state.Supplies = some data) ∧
    (d.Supplies = some l →
      (Event.suppliesCall ∉ (GatherB d env order).trace ∧
       (GatherB d env order).state.Supplies = some l) ∧
      (Event.suppliesCall ∉ (GatherA d env order).trace ∧
       (GatherA d env order).state.Supplies = some l)) := by
  constructor
  · intro hresp
    rw [getSupplies_success d env line data hresp]
  · intro hl
    have hic := initializeClient_cached d env l hl
    have hsupB : (GatherB d env order).state.Supplies = some l := by
      unfold GatherB
      rw [gatherBRest_state, hic]
      exact (refreshToken_supplies d env).trans hl
    have htrB : Event.suppliesCall ∉ (GatherB d env order).trace := by
      unfold GatherB
      rcases gatherBRest_trace_shape (initializeClient d env) env order with h | h <;>
        rw [h, hic] <;> simp [List.mem_map]
    have key : ∀ s1 : StepOut, s1.state.Supplies = some l →
        (s1.trace = [] ∨ s1.trace = [Event.loginCall]) →
        Event.suppliesCall ∉ (gatherARest s1 env order).trace ∧
        (gatherARest s1 env order).state.Supplies = some l := by
      intro s1 hls htr
      obtain ⟨hstate, htrace⟩ := gatherARest_cached s1 env order l hls
      refine ⟨?_, hstate⟩
      rcases htrace with h | h <;> rcases htr with h2 | h2 <;>
        simp [h, h2, List.mem_map]
    refine ⟨⟨htrB, hsupB⟩, ?_⟩
    by_cases htok : d.token = ""
    · have hk := key (refreshToken d env) ((refreshToken_supplies d env).trans hl)
        (Or.inr (refreshToken_trace d env))
      unfold GatherA
      rw [if_pos htok]
      exact hk
    · have hk := key ⟨d, [], none⟩ hl (Or.inl rfl)
      unfold GatherA
      rw [if_neg htok]
      exact hk

/-- Witness for C8: a cached empty supply list is reused by both
revisions and a successful discovery of an empty array stores some []. -/
theorem supplies_cached_c8_witness :
    (getSupplies dTok envStub).state.Supplies = some [] ∧
    Event.suppliesCall ∉ (GatherB dTok envStub []).trace ∧
    (GatherB dTok envStub []).state.Supplies = some [] ∧
    Event.suppliesCall ∉ (GatherA dTok envStub []).trace ∧
    (GatherA dTok envStub []).state.Supplies = some [] := by
  have h := supplies_cached_c8 dTok envStub [] [] "200 OK" []
  have h1 := h.1 rfl
  have h2 := h.2 rfl
  exact ⟨h1, h2.1.1, h2.1.2, h2.2.1, h2.2.2⟩

end Datadis
